import Mathlib

/-
Verification of the climate-choropleth data-join and render pipeline
(repository: ClimateChangesDSC209R).

The repository holds four near-duplicate historical variants of one
pipeline; the primary (most evolved) variant lives in the first half of
the unnamed source file ("part 000"): MapLibre map, an ISO3 join between
the world geometry and a temperature indicator table, a yearly-averaged
sea-level series, clamped color ramps, and a guarded update routine.
The older variant in map.js reads the year column directly off the
indicator table and leaves its temperature ramp parameter unclamped.

Embedding conventions:
 - JS numbers are modelled as exact rationals, extended with NaN and the
   two infinities (JNum) where the code can produce them (division by a
   zero-width color domain).  Join-key and date fields are strings in
   the datasets, and indicator values are numbers; the model reflects
   this in the branches it gives those reads.
 - JS objects used as records are association lists (PropMap); object
   update by spread keeps the original key order, which setProp mirrors.
 - d3's palette interpolators are external to the repository; a color is
   modelled abstractly as the palette tag applied to the interpolation
   parameter the code passes in (ColorV), plus literal color strings.
 - The map surface is explicit state: the climate source's current data,
   the ocean layer's existence flag, and its paint value.  A throwing
   surface call is an Except value; the code's try/catch is the handler.
-/

/-- A JavaScript number: a finite rational, NaN, or a signed infinity. -/
inductive JNum where
  | fin (q : ℚ)
  | nan
  | inf
  | ninf
deriving DecidableEq, Repr

/-- JS Math.min: NaN-propagating minimum. -/
def jmin : JNum → JNum → JNum
  | .nan, _ => .nan
  | _, .nan => .nan
  | .ninf, _ => .ninf
  | _, .ninf => .ninf
  | .inf, b => b
  | a, .inf => a
  | .fin p, .fin q => .fin (min p q)

/-- JS Math.max: NaN-propagating maximum. -/
def jmax : JNum → JNum → JNum
  | .nan, _ => .nan
  | _, .nan => .nan
  | .inf, _ => .inf
  | _, .inf => .inf
  | .ninf, b => b
  | a, .ninf => a
  | .fin p, .fin q => .fin (max p q)

/-- JS subtraction on extended numbers. -/
def jsub : JNum → JNum → JNum
  | .nan, _ => .nan
  | _, .nan => .nan
  | .fin a, .fin b => .fin (a - b)
  | .inf, .inf => .nan
  | .inf, _ => .inf
  | .ninf, .ninf => .nan
  | .ninf, _ => .ninf
  | .fin _, .inf => .ninf
  | .fin _, .ninf => .inf

/-- JS division on extended numbers: finite/0 is a signed infinity and
0/0 is NaN, exactly the behaviour a zero-width color domain triggers. -/
def jdiv : JNum → JNum → JNum
  | .nan, _ => .nan
  | _, .nan => .nan
  | .fin a, .fin b =>
      if b = 0 then (if a = 0 then .nan else if 0 < a then .inf else .ninf)
      else .fin (a / b)
  | .fin _, .inf => .fin 0
  | .fin _, .ninf => .fin 0
  | .inf, .inf => .nan
  | .inf, .ninf => .nan
  | .ninf, .inf => .nan
  | .ninf, .ninf => .nan
  | .inf, .fin b => if 0 ≤ b then .inf else .ninf
  | .ninf, .fin b => if 0 ≤ b then .ninf else .inf

/-- A color as the pipeline produces it: a d3 palette applied to the
interpolation parameter the code passes in, or a literal color string. -/
inductive ColorV where
  | ylOrRd (t : JNum)
  | blues (t : JNum)
  | lit (s : String)
deriving DecidableEq, Repr

/-- A JS value stored in a feature/row property map. -/
inductive JSVal where
  | null
  | str (s : String)
  | num (q : ℚ)
  | color (c : ColorV)
deriving DecidableEq, Repr

/-- A JS object used as a record: an ordered association list.  Keys are
unique in the data this pipeline consumes. -/
abbrev PropMap := List (String × JSVal)

/-- Property read: some v if the key is present, none if absent. -/
def lookupP : PropMap → String → Option JSVal
  | [], _ => none
  | (k1, v) :: rest, k => if k1 = k then some v else lookupP rest k

/-- Object-spread update: overwrite the key in place if present
(preserving key order, as JS spread does), else append it. -/
def setProp : PropMap → String → JSVal → PropMap
  | [], k, v => [(k, v)]
  | (k1, v1) :: rest, k, v =>
      if k1 = k then (k, v) :: rest else (k1, v1) :: setProp rest k v

@[simp] theorem lookupP_nil (k : String) : lookupP [] k = none := rfl

@[simp] theorem lookupP_cons (k1 k : String) (v : JSVal) (rest : PropMap) :
    lookupP ((k1, v) :: rest) k = if k1 = k then some v else lookupP rest k := rfl

@[simp] theorem lookupP_setProp_same (m : PropMap) (k : String) (v : JSVal) :
    lookupP (setProp m k v) k = some v := by
  induction m with
  | nil => simp [setProp]
  | cons hd tl ih =>
      obtain ⟨k1, v1⟩ := hd
      by_cases h : k1 = k <;> simp [setProp, h, ih]

@[simp] theorem lookupP_setProp_other (m : PropMap) (k k2 : String) (v : JSVal)
    (h : k ≠ k2) : lookupP (setProp m k v) k2 = lookupP m k2 := by
  induction m with
  | nil => simp [setProp, lookupP, h]
  | cons hd tl ih =>
      obtain ⟨k1, v1⟩ := hd
      by_cases h1 : k1 = k
      · subst h1
        simp [setProp, h]
      · simp [setProp, h1, ih]

-- ---------------------------------------------------------------------
-- JS numeric string parsing (Number(...) and parseInt(...))
-- ---------------------------------------------------------------------

/-- JS String.prototype.trim: strip whitespace from both ends.  Defined
over the character list so that it evaluates by kernel reduction. -/
def jsTrim (s : String) : String :=
  String.mk (((s.toList.dropWhile Char.isWhitespace).reverse.dropWhile Char.isWhitespace).reverse)

/-- Split off the longest leading run of decimal digits. -/
def takeDigits : List Char → (List Char × List Char)
  | [] => ([], [])
  | c :: cs =>
      if c.isDigit then
        let p := takeDigits cs
        (c :: p.1, p.2)
      else ([], c :: cs)

/-- Value of a digit run read in base 10. -/
def digitsToNat (l : List Char) : Nat :=
  l.foldl (fun a c => 10 * a + (c.toNat - 48)) 0

/-- Parse an unsigned decimal literal (digits, optional fraction),
returning its value and the unconsumed remainder. -/
def parseUnsigned (cs : List Char) : Option (ℚ × List Char) :=
  let ip := takeDigits cs
  match ip.2 with
  | '.' :: r2 =>
      let fp := takeDigits r2
      if ip.1 = [] ∧ fp.1 = [] then none
      else some ((digitsToNat ip.1 : ℚ) + (digitsToNat fp.1 : ℚ) / (10 ^ fp.1.length : ℚ), fp.2)
  | _ => if ip.1 = [] then none else some ((digitsToNat ip.1 : ℚ), ip.2)

/-- Parse an optionally signed decimal integer, returning its value and
the unconsumed remainder. -/
def parseSignedInt (cs : List Char) : Option (Int × List Char) :=
  let sgn : Int × List Char :=
    match cs with
    | '-' :: r => (-1, r)
    | '+' :: r => (1, r)
    | _ => (1, cs)
  let ds := takeDigits sgn.2
  if ds.1 = [] then none else some (sgn.1 * (digitsToNat ds.1 : Int), ds.2)

/-- Parse a full JS numeric literal (sign, decimal, optional exponent);
none models NaN.  The whole string must be consumed. -/
def jsStrToNumCore (cs : List Char) : Option ℚ :=
  let sgn : ℚ × List Char :=
    match cs with
    | '-' :: r => (-1, r)
    | '+' :: r => (1, r)
    | _ => (1, cs)
  match parseUnsigned sgn.2 with
  | none => none
  | some m =>
      match m.2 with
      | [] => some (sgn.1 * m.1)
      | 'e' :: r =>
          match parseSignedInt r with
          | some e => if e.2 = [] then some (sgn.1 * m.1 * (10 : ℚ) ^ e.1) else none
          | none => none
      | 'E' :: r =>
          match parseSignedInt r with
          | some e => if e.2 = [] then some (sgn.1 * m.1 * (10 : ℚ) ^ e.1) else none
          | none => none
      | _ => none

/-- JS Number(string): whitespace-trimmed; the empty string is 0;
otherwise a full numeric literal, with NaN modelled as none. -/
def jsStrToNum (s : String) : Option ℚ :=
  let t := jsTrim s
  if t = "" then some 0 else jsStrToNumCore t.toList

/-- JS Number(v) on a property value; none models NaN. -/
def jsNumber : JSVal → Option ℚ
  | .null => some 0
  | .num q => some q
  | .str s => jsStrToNum s
  | .color _ => none

/-- JS parseInt: skip leading whitespace, optional sign, then the
longest digit run; NaN (none) when no digit is found. -/
def parseIntJS (s : String) : Option Int :=
  let cs := s.toList.dropWhile (fun c => c.isWhitespace)
  let sgn : Int × List Char :=
    match cs with
    | '-' :: r => (-1, r)
    | '+' :: r => (1, r)
    | _ => (1, cs)
  let ds := takeDigits sgn.2
  if ds.1 = [] then none else some (sgn.1 * (digitsToNat ds.1 : Int))

/-- JS s.slice(-4): the last four characters (the whole string when it
is shorter). -/
def sliceLast4 (s : String) : String :=
  String.mk (s.toList.drop (s.length - 4))

-- ---------------------------------------------------------------------
-- Color scales (part 000, lines 21-30; map.js, lines 18-26)
-- ---------------------------------------------------------------------

/-- Interpolation parameter of part 000's getTempColor:
(v + 2) / 5 clamped to the unit interval via Math.max/Math.min.  The
input is the finite number getTempValue produced. -/
def tempT (v : ℚ) : ℚ :=
  max 0 (min ((v + 2) / 5) 1)

/-- part 000's getTempColor: the YlOrRd palette at the clamped
parameter. -/
def getTempColor (v : ℚ) : ColorV :=
  ColorV.ylOrRd (JNum.fin (tempT v))

/-- Interpolation parameter of part 000's getSeaColor:
(v - minSea) / (maxSea - minSea), clamped by Math.max(0, Math.min(t, 1)).
Extended numbers are used because the subtraction in the denominator can
be zero, making the quotient NaN or a signed infinity. -/
def seaT (v minSea maxSea : JNum) : JNum :=
  jmax (.fin 0) (jmin (jdiv (jsub v minSea) (jsub maxSea minSea)) (.fin 1))

/-- part 000's getSeaColor: the Blues palette at the clamped
parameter. -/
def getSeaColor (v minSea maxSea : JNum) : ColorV :=
  ColorV.blues (seaT v minSea maxSea)

/-- Interpolation parameter of map.js's getTempColor: (v + 2) / 5,
passed to the palette with no clamping in the repository's code. -/
def mapJsTempT (v : ℚ) : ℚ :=
  (v + 2) / 5

/-- map.js's getTempColor: the YlOrRd palette at the unclamped
parameter. -/
def mapJsGetTempColor (v : ℚ) : ColorV :=
  ColorV.ylOrRd (JNum.fin (mapJsTempT v))

-- ---------------------------------------------------------------------
-- Temperature table lookup (part 000, getTempValue, lines 35-51)
-- ---------------------------------------------------------------------

/-- The candidate year-column names, in the fixed order the source lists
them: plain integer-as-string, then the F-prefixed and Y-prefixed
variants. -/
def yearCandidates (year : Int) : List String :=
  [toString year, "F" ++ toString year, "Y" ++ toString year]

/-- Loop body of getTempValue: walk the candidate keys; at the first
present key, return null for a null/empty/non-numeric stored value and
the parsed number otherwise; later candidates are not consulted. -/
def getTempValueGo (props : PropMap) : List String → Option ℚ
  | [] => none
  | k :: ks =>
      match lookupP props k with
      | none => getTempValueGo props ks
      | some raw =>
          if raw = JSVal.null ∨ raw = JSVal.str "" then none
          else
            match jsNumber raw with
            | none => none
            | some q => some q

/-- part 000's getTempValue (lines 35-51). -/
def getTempValue (props : PropMap) (year : Int) : Option ℚ :=
  getTempValueGo props (yearCandidates year)

/-- Claim-level helper: the first candidate key that is present in the
row, together with its stored value. -/
def firstPresentIn (props : PropMap) (ks : List String) : Option (String × JSVal) :=
  ks.findSome? (fun k => (lookupP props k).map (fun v => (k, v)))

-- ---------------------------------------------------------------------
-- Join-key resolution (part 000, updateMap lines 171-179)
-- ---------------------------------------------------------------------

/-- The candidate join-key property names, in the fixed order the source
lists them. -/
def isoCandidates : List String :=
  ["ISO3", "ISO_A3", "ADM0_A3", "adm0_a3", "SOV_A3", "sov_a3"]

/-- The JS truthiness chain props.ISO3 || props.ISO_A3 || ...: the first
candidate whose stored value is a non-empty string (join-key fields are
strings in the datasets; null and absent fields are falsy and are
skipped). -/
def firstTruthyKey (props : PropMap) (ks : List String) : Option String :=
  ks.findSome? (fun k =>
    match lookupP props k with
    | some (JSVal.str s) => if s = "" then none else some s
    | _ => none)

/-- part 000's key resolution: the truthiness chain's winner (or "")
with trim applied only to the winner. -/
def resolveIso (props : PropMap) : String :=
  jsTrim ((firstTruthyKey props isoCandidates).getD "")

/-- Modelled from the spec's words (for comparison with resolveIso):
the first candidate whose trimmed value is non-empty wins, yielding the
trimmed value. -/
def specResolveKey (props : PropMap) : Option String :=
  isoCandidates.findSome? (fun k =>
    match lookupP props k with
    | some (JSVal.str s) => if jsTrim s = "" then none else some (jsTrim s)
    | _ => none)

-- ---------------------------------------------------------------------
-- Features and the land update (part 000, updateMap lines 161-200)
-- ---------------------------------------------------------------------

/-- A GeoJSON feature: opaque geometry plus a property record (possibly
null/absent, which the code defends with properties || braces). -/
structure Feature where
  geometry : String
  properties : Option PropMap
deriving DecidableEq, Repr

/-- A feature collection: its features plus the other top-level fields,
which the spread in updateMap preserves verbatim. -/
structure FC where
  meta : String
  features : List Feature
deriving DecidableEq, Repr

/-- The indicator index tempByISO: join key to indicator row. -/
abbrev Store := String → Option PropMap

/-- The joined value of part 000's updateMap (lines 172-182): resolve
the join key, fetch the indicator row when the key is non-empty (iso ?
tempByISO[iso] : null), then extract the year value (tempRow ?
getTempValue(tempRow, currentYear) : null). -/
def joinValue (idx : Store) (year : Int) (props : PropMap) : Option ℚ :=
  let iso := resolveIso props
  let tempRow : Option PropMap := if iso ≠ "" then idx iso else none
  match tempRow with
  | some row => getTempValue row year
  | none => none

/-- Per-feature body of part 000's updateMap (lines 168-197): compute
the joined value, then merge value (the number, or null) and
value_color (the ramp color, or null) into the feature's properties. -/
def updateFeature (idx : Store) (year : Int) (f : Feature) : Feature :=
  let props := f.properties.getD []
  let val : Option ℚ := joinValue idx year props
  let valJS : JSVal :=
    match val with
    | some q => JSVal.num q
    | none => JSVal.null
  let colorJS : JSVal :=
    match val with
    | some q => JSVal.color (getTempColor q)
    | none => JSVal.null
  { f with properties := some (setProp (setProp props "value" valJS) "value_color" colorJS) }

/-- The climate-fill layer's paint expression (part 000, lines 97-101):
coalesce of the feature's value_color with the literal fallback
"#e0e0e0" (a null or absent value_color falls through). -/
def paintFillColor (props : PropMap) : JSVal :=
  match lookupP props "value_color" with
  | some v => if v = JSVal.null then JSVal.str "#e0e0e0" else v
  | none => JSVal.str "#e0e0e0"

-- ---------------------------------------------------------------------
-- Indicator index build (part 000, lines 77-81)
-- ---------------------------------------------------------------------

/-- The row key the build loop computes: (p.ISO3 || "").trim().
Join-key fields are strings in the dataset; a missing or null ISO3 is
falsy and yields "". -/
def rowKey (p : PropMap) : String :=
  jsTrim
    (match lookupP p "ISO3" with
     | some (JSVal.str s) => s
     | _ => "")

/-- Properties of a row feature, defended as properties || braces. -/
def rowProps (f : Feature) : PropMap :=
  f.properties.getD []

/-- One step of the build loop: insert the row under its key when the
key is non-empty; assignment overwrites any earlier entry. -/
def buildStep (st : Store) (f : Feature) : Store :=
  let p := rowProps f
  let iso := rowKey p
  if iso ≠ "" then (fun k => if k = iso then some p else st k) else st

/-- part 000's tempByISO build (lines 77-81): fold the rows of the
indicator table into the key-to-row store, starting empty. -/
def buildTempByISO (rows : List Feature) : Store :=
  rows.foldl buildStep (fun _ => none)

-- ---------------------------------------------------------------------
-- Sea-level yearly aggregation (part 000, processSeaLevels, 133-156)
-- ---------------------------------------------------------------------

/-- One dated sea-level record as processSeaLevels reads it: the Date
property (a string; none models null/undefined) and the Value property
(numeric in the dataset; none models null/undefined). -/
structure SeaRec where
  date : Option String
  value : Option ℚ
deriving DecidableEq, Repr

/-- Year extraction: parseInt(date.slice(-4)); none models NaN, whose
records the code accumulates under the object key "NaN". -/
def extractYear (d : String) : Option Int :=
  parseIntJS (sliceLast4 d)

/-- Append a value to a year's bucket, creating the bucket at the end
of the list when the year is new (JS push on yearly[year]). -/
def pushAt : List (Option Int × List ℚ) → Option Int → ℚ → List (Option Int × List ℚ)
  | [], y, v => [(y, [v])]
  | (y1, l) :: rest, y, v =>
      if y1 = y then (y1, l ++ [v]) :: rest else (y1, l) :: pushAt rest y v

/-- One record of the grouping pass of processSeaLevels: skip a record
with a falsy date or a null/undefined value, bucket the rest by
extracted year. -/
def collectStep (acc : List (Option Int × List ℚ)) (r : SeaRec) : List (Option Int × List ℚ) :=
  match r.date, r.value with
  | some d, some v => if d = "" then acc else pushAt acc (extractYear d) v
  | _, _ => acc

/-- First grouping pass of processSeaLevels. -/
def collectYearly (recs : List SeaRec) : List (Option Int × List ℚ) :=
  recs.foldl collectStep []

/-- arr.reduce((a, b) => a + b, 0): left fold of addition. -/
def reduceSum (l : List ℚ) : ℚ :=
  l.foldl (fun a b => a + b) 0

/-- part 000's processSeaLevels (lines 133-156): group by year, then
replace each bucket by its average. -/
def processSeaLevels (recs : List SeaRec) : List (Option Int × ℚ) :=
  (collectYearly recs).map (fun p => (p.1, reduceSum p.2 / (p.2.length : ℚ)))

/-- Association lookup in a year-keyed list. -/
def lookupA {α : Type} : List (Option Int × α) → Option Int → Option α
  | [], _ => none
  | (y1, a) :: rest, y => if y1 = y then some a else lookupA rest y

/-- Claim-level helper: the values, in record order, of the kept records
(truthy date, present value) whose extracted year is y. -/
def valuesForYear (recs : List SeaRec) (y : Option Int) : List ℚ :=
  recs.filterMap (fun r =>
    match r.date, r.value with
    | some d, some v =>
        if d ≠ "" ∧ extractYear d = y then some v else none
    | _, _ => none)

-- ---------------------------------------------------------------------
-- The map state and part 000's updateMap (lines 161-218)
-- ---------------------------------------------------------------------

/-- The mutable state of the part 000 page: the loaded base data and
indices, the render state (currentYear, mode), and the rendering
surface (climate source data, ocean layer existence, ocean paint). -/
structure MapState where
  worldGeom : Option FC
  tempByISO : Store
  seaByYear : List (Option Int × ℚ)
  currentYear : Int
  mode : String
  climateSource : Option FC
  oceanLayerExists : Bool
  oceanPaint : JSVal

/-- The land recomputation of updateMap: map every base feature through
updateFeature, preserving the collection's other fields (spread). -/
def landUpdated (idx : Store) (year : Int) (wg : FC) : FC :=
  { wg with features := wg.features.map (updateFeature idx year) }

/-- Math.min(...vals) over the collected sea values; empty input gives
Infinity, as in JS. -/
def jsMinList (l : List ℚ) : JNum :=
  l.foldl (fun a q => jmin a (.fin q)) .inf

/-- Math.max(...vals) over the collected sea values; empty input gives
-Infinity, as in JS. -/
def jsMaxList (l : List ℚ) : JNum :=
  l.foldl (fun a q => jmax a (.fin q)) .ninf

/-- The single ocean color updateMap computes: the fallback "#aac6ff"
when the current year has no averaged value, else getSeaColor at the
series-wide min/max. -/
def oceanColorOf (s : MapState) : JSVal :=
  match lookupA s.seaByYear (some s.currentYear) with
  | none => JSVal.str "#aac6ff"
  | some v =>
      JSVal.color
        (getSeaColor (JNum.fin v)
          (jsMinList (s.seaByYear.map Prod.snd))
          (jsMaxList (s.seaByYear.map Prod.snd)))

/-- map.setPaintProperty("ocean-fill", ...): throws when the layer does
not exist, otherwise updates the paint value. -/
def setPaintPropertyOcean (s : MapState) (c : JSVal) : Except String MapState :=
  if s.oceanLayerExists then Except.ok { s with oceanPaint := c }
  else Except.error "layer ocean-fill does not exist"

/-- part 000's updateMap (lines 161-218): early no-op return when the
climate source or the world geometry is missing; otherwise publish the
recomputed land collection via setData, then attempt the ocean paint
inside try/catch (a throw is caught and logged, leaving paint alone). -/
def updateMap (s : MapState) : MapState :=
  match s.climateSource, s.worldGeom with
  | some _, some wg =>
      let s1 := { s with climateSource := some (landUpdated s.tempByISO s.currentYear wg) }
      match setPaintPropertyOcean s1 (oceanColorOf s) with
      | Except.ok s2 => s2
      | Except.error _ => s1
  | _, _ => s

-- ---------------------------------------------------------------------
-- The older map.js updater (map.js, lines 98-144)
-- ---------------------------------------------------------------------

/-- The mutable state of the map.js page. -/
structure MJState where
  tempData : Option FC
  seaByYear : List (Option Int × ℚ)
  currentYear : Int
  mode : String
  climateSource : Option FC
  waterLayerExists : Bool
  waterPaint : JSVal

/-- Per-feature body of map.js's updateMap (lines 105-121): read the
year column directly, default the color to "#ccc" for null, undefined
or empty values, else run the (unclamped) temperature ramp.  Non-empty
non-numeric year values would flow through JS string coercion in the
ramp and do not occur in the dataset; they are mapped to an explicit
marker here and are not relied on by any theorem. -/
def mapJsUpdateFeature (year : Int) (f : Feature) : Feature :=
  let props := f.properties.getD []
  let val := lookupP props (toString year)
  let colorJS : JSVal :=
    match val with
    | none => JSVal.str "#ccc"
    | some JSVal.null => JSVal.str "#ccc"
    | some (JSVal.str "") => JSVal.str "#ccc"
    | some (JSVal.num q) => JSVal.color (mapJsGetTempColor q)
    | some _ => JSVal.color (ColorV.lit "unmodelled-string-coercion")
  let valJS : JSVal := (val.getD JSVal.null)
  { f with properties := some (setProp (setProp props "value" valJS) "value_color" colorJS) }

/-- map.js's getSeaColor (lines 23-26): its body reads minSea and
maxSea, which are const-bound inside updateMap and not in scope at top
level, so every call throws a ReferenceError. -/
def mapJsGetSeaColor (v : ℚ) : Except String ColorV :=
  Except.error "ReferenceError: minSea is not defined"

/-- The try/catch around map.setPaintProperty("water", ...): a missing
water layer is caught and logged, leaving the paint value alone. -/
def mapJsApplyWater (s : MJState) (c : JSVal) : MJState :=
  if s.waterLayerExists then { s with waterPaint := c } else s

/-- map.js's updateMap (lines 98-144).  Reading tempData.features or
calling src.setData on an undefined source throws a TypeError that the
function does not catch; only the water paint call sits in try/catch.
The sea branch calls getSeaColor, whose ReferenceError (see
mapJsGetSeaColor) is also uncaught. -/
def mapJsUpdateMap (s : MJState) : Except String MJState := do
  let td ←
    match s.tempData with
    | some td => pure td
    | none => Except.error "TypeError: cannot read features of undefined"
  let updated : FC := { td with features := td.features.map (mapJsUpdateFeature s.currentYear) }
  let s1 ←
    match s.climateSource with
    | some _ => pure { s with climateSource := some updated }
    | none => Except.error "TypeError: cannot read setData of undefined"
  match lookupA s1.seaByYear (some s1.currentYear) with
  | none => pure (mapJsApplyWater s1 (JSVal.str "#aac6ff"))
  | some v => do
      let c ← mapJsGetSeaColor v
      pure (mapJsApplyWater s1 (JSVal.color c))

-- ---------------------------------------------------------------------
-- Theorems
-- ---------------------------------------------------------------------

theorem head?_filter_eq_find? {α : Type} (p : α → Bool) (l : List α) :
    (l.filter p).head? = l.find? p := by
  induction l with
  | nil => rfl
  | cons a l ih =>
      by_cases h : p a
      · simp [List.filter_cons, List.find?_cons, h]
      · simp [List.filter_cons, List.find?_cons, h, ih]

theorem getLast?_filter_eq_find?_reverse {α : Type} (p : α → Bool) (l : List α) :
    (l.filter p).getLast? = l.reverse.find? p := by
  rw [List.getLast?_eq_head?_reverse, ← List.filter_reverse, head?_filter_eq_find?]

theorem buildStep_foldl_lookup (rows : List Feature) (st : Store) (k : String)
    (hk : k ≠ "") :
    (rows.foldl buildStep st) k =
      match rows.reverse.find? (fun f => rowKey (rowProps f) == k) with
      | some f => some (rowProps f)
      | none => st k := by
  induction rows generalizing st with
  | nil => rfl
  | cons r rest ih =>
      rw [List.foldl_cons, ih (buildStep st r)]
      rw [List.reverse_cons, List.find?_append]
      cases hfind : rest.reverse.find? (fun f => rowKey (rowProps f) == k) with
      | some f => rfl
      | none =>
          simp only [Option.none_or]
          by_cases hkey : rowKey (rowProps r) = k
          · have hne : rowKey (rowProps r) ≠ "" := by rw [hkey]; exact hk
            simp [List.find?_cons, buildStep, hkey, hne, hk]
          · by_cases hne : rowKey (rowProps r) = ""
            · simp [List.find?_cons, buildStep, hkey, hne, Ne.symm hk]
            · simp [List.find?_cons, buildStep, hkey, hne, Ne.symm hkey]

/-- C9: when the time-series index is built from rows containing the
same join key more than once, the later insertion overwrites the
earlier one: after the build, looking up a duplicated (non-empty) key
returns the row of the last occurrence in input order. -/
theorem C9_tempByISO_last_write_wins (rows : List Feature) (k : String) (hk : k ≠ "") :
    buildTempByISO rows k =
      ((rows.filter (fun f => rowKey (rowProps f) == k)).getLast?).map rowProps := by
  rw [getLast?_filter_eq_find?_reverse]
  rw [buildTempByISO, buildStep_foldl_lookup rows _ k hk]
  cases rows.reverse.find? (fun f => rowKey (rowProps f) == k) <;> rfl

/-- Witness for C9: two rows share the key "USA"; the build returns the
second row's properties. -/
theorem C9_witness :
    buildTempByISO
      [⟨"g1", some [("ISO3", JSVal.str "USA"), ("F1992", JSVal.str "1")]⟩,
       ⟨"g2", some [("ISO3", JSVal.str "USA"), ("F1992", JSVal.str "2")]⟩] "USA" =
      some [("ISO3", JSVal.str "USA"), ("F1992", JSVal.str "2")] := by
  rw [C9_tempByISO_last_write_wins _ _ (by decide)]
  decide

/-- Counterexample for C6: with the degenerate domain min = max = 5 and
the value 5 (which is forced whenever the sea-level series has exactly
one observed year), the division 0/0 yields NaN, Math.min and Math.max
propagate it, and the palette receives NaN: the output is NaN-derived,
not a fixed midpoint color. -/
theorem C6_counterexample :
    getSeaColor (JNum.fin 5) (JNum.fin 5) (JNum.fin 5) = ColorV.blues JNum.nan ∧
    ColorV.blues JNum.nan ≠ ColorV.blues (JNum.fin (1 / 2)) := by
  constructor
  · show ColorV.blues (jmax _ _) = _
    norm_num [getSeaColor, seaT, jsub, jdiv, jmin, jmax]
  · intro h
    exact JNum.noConfusion (ColorV.blues.injEq _ _ ▸ h)

/-- C6 amended: getSeaColor has no special case for a degenerate domain
(min = max).  The quotient (v - min)/0 is NaN when v equals the common
bound, and that NaN propagates through the clamp into the palette
argument; when v is above (below) the bound the quotient is a signed
infinity, which the clamp maps to the boundary parameter 1 (0). -/
theorem C6_degenerate_domain (v m : ℚ) :
    (v = m → getSeaColor (JNum.fin v) (JNum.fin m) (JNum.fin m) = ColorV.blues JNum.nan) ∧
    (m < v → getSeaColor (JNum.fin v) (JNum.fin m) (JNum.fin m) = ColorV.blues (JNum.fin 1)) ∧
    (v < m → getSeaColor (JNum.fin v) (JNum.fin m) (JNum.fin m) = ColorV.blues (JNum.fin 0)) := by
  refine ⟨fun h => ?_, fun h => ?_, fun h => ?_⟩
  · subst h
    norm_num [getSeaColor, seaT, jsub, jdiv, jmin, jmax]
  · have h1 : ¬(v - m = 0) := sub_ne_zero.mpr (ne_of_gt h)
    have h2 : 0 < v - m := sub_pos.mpr h
    norm_num [getSeaColor, seaT, jsub, jdiv, jmin, jmax, h1, h2]
  · have h1 : ¬(v - m = 0) := sub_ne_zero.mpr (ne_of_lt h)
    have h2 : ¬(0 < v - m) := by simp [sub_pos]; exact le_of_lt h
    norm_num [getSeaColor, seaT, jsub, jdiv, jmin, jmax, h1, h2]

/-- Witness for C6: the amended theorem applied at the degenerate
domain min = max = 5 with values 5, 7 and 3. -/
theorem C6_witness :
    getSeaColor (JNum.fin 5) (JNum.fin 5) (JNum.fin 5) = ColorV.blues JNum.nan ∧
    getSeaColor (JNum.fin 7) (JNum.fin 5) (JNum.fin 5) = ColorV.blues (JNum.fin 1) ∧
    getSeaColor (JNum.fin 3) (JNum.fin 5) (JNum.fin 5) = ColorV.blues (JNum.fin 0) :=
  ⟨(C6_degenerate_domain 5 5).1 rfl,
   (C6_degenerate_domain 7 5).2.1 (by norm_num),
   (C6_degenerate_domain 3 5).2.2 (by norm_num)⟩

/-- The clamped rational parameter getSeaColor computes on a
non-degenerate finite domain (proved equal to seaT below). -/
def seaTQ (v mn mx : ℚ) : ℚ :=
  max 0 (min ((v - mn) / (mx - mn)) 1)

theorem seaT_fin_of_ne (v mn mx : ℚ) (h : mx - mn ≠ 0) :
    seaT (JNum.fin v) (JNum.fin mn) (JNum.fin mx) = JNum.fin (seaTQ v mn mx) := by
  simp [seaT, seaTQ, jsub, jdiv, jmin, jmax, h]

theorem tempT_mono (v1 v2 : ℚ) (h : v1 ≤ v2) : tempT v1 ≤ tempT v2 := by
  unfold tempT
  have hd : (v1 + 2) / 5 ≤ (v2 + 2) / 5 := by
    apply div_le_div_of_nonneg_right (by linarith) (by norm_num)
  exact max_le_max le_rfl (min_le_min hd le_rfl)

theorem tempT_of_le_min (v : ℚ) (h : v ≤ -2) : tempT v = 0 := by
  unfold tempT
  have h1 : (v + 2) / 5 ≤ 0 := by
    rw [div_nonpos_iff]
    right
    exact ⟨by linarith, by norm_num⟩
  rw [min_eq_left (h1.trans zero_le_one), max_eq_left h1]

theorem tempT_of_ge_max (v : ℚ) (h : 3 ≤ v) : tempT v = 1 := by
  unfold tempT
  have h1 : 1 ≤ (v + 2) / 5 := by
    rw [le_div_iff₀ (by norm_num : (0 : ℚ) < 5)]
    linarith
  rw [min_eq_right h1, max_eq_right zero_le_one]

theorem seaTQ_mono (mn mx v1 v2 : ℚ) (hd : mn < mx) (h : v1 ≤ v2) :
    seaTQ v1 mn mx ≤ seaTQ v2 mn mx := by
  unfold seaTQ
  have hq : (v1 - mn) / (mx - mn) ≤ (v2 - mn) / (mx - mn) := by
    apply div_le_div_of_nonneg_right (by linarith) (by linarith)
  exact max_le_max le_rfl (min_le_min hq le_rfl)

theorem seaTQ_of_le_min (mn mx v : ℚ) (hd : mn < mx) (h : v ≤ mn) :
    seaTQ v mn mx = 0 := by
  unfold seaTQ
  have h1 : (v - mn) / (mx - mn) ≤ 0 := by
    rw [div_nonpos_iff]
    right
    exact ⟨by linarith, by linarith⟩
  rw [min_eq_left (h1.trans zero_le_one), max_eq_left h1]

theorem seaTQ_of_ge_max (mn mx v : ℚ) (hd : mn < mx) (h : mx ≤ v) :
    seaTQ v mn mx = 1 := by
  unfold seaTQ
  have h1 : 1 ≤ (v - mn) / (mx - mn) := by
    rw [le_div_iff₀ (by linarith : (0 : ℚ) < mx - mn)]
    linarith
  rw [min_eq_right h1, max_eq_right zero_le_one]

/-- Counterexample for C5: the claim quantifies over each mode's color
function in both cited files, but map.js's getTempColor passes the raw
parameter (v + 2)/5 to the palette with no clamp, so for values below
the temperature domain minimum -2 the interpolation parameter is not
constant: at -7 it is -1, while at the boundary -2 it is 0. -/
theorem C5_counterexample :
    mapJsTempT (-7) ≠ mapJsTempT (-2) ∧
    mapJsTempT (-7) = -1 ∧ mapJsTempT (-2) = 0 := by
  norm_num [mapJsTempT]

/-- C5 amended: for part 000's color functions the normalized parameter
is monotonically non-decreasing and is clamped — constant below the
domain minimum and above the domain maximum, equal to its boundary
value (temperature domain -2..3; sea-level domain minSea..maxSea when
minSea < maxSea, where the parameter is the finite clamped rational
seaTQ).  map.js's getTempColor parameter is monotone but unclamped, so
its constancy outside the domain fails (any clamping happens only
inside the external d3 palette). -/
theorem C5_clamped_monotone :
    (∀ v1 v2 : ℚ, v1 ≤ v2 → tempT v1 ≤ tempT v2) ∧
    (∀ v : ℚ, v ≤ -2 → getTempColor v = getTempColor (-2)) ∧
    (∀ v : ℚ, 3 ≤ v → getTempColor v = getTempColor 3) ∧
    (∀ mn mx v : ℚ, mn < mx →
        getSeaColor (JNum.fin v) (JNum.fin mn) (JNum.fin mx) =
          ColorV.blues (JNum.fin (seaTQ v mn mx))) ∧
    (∀ mn mx v1 v2 : ℚ, mn < mx → v1 ≤ v2 → seaTQ v1 mn mx ≤ seaTQ v2 mn mx) ∧
    (∀ mn mx v : ℚ, mn < mx → v ≤ mn →
        getSeaColor (JNum.fin v) (JNum.fin mn) (JNum.fin mx) =
          getSeaColor (JNum.fin mn) (JNum.fin mn) (JNum.fin mx)) ∧
    (∀ mn mx v : ℚ, mn < mx → mx ≤ v →
        getSeaColor (JNum.fin v) (JNum.fin mn) (JNum.fin mx) =
          getSeaColor (JNum.fin mx) (JNum.fin mn) (JNum.fin mx)) ∧
    (∀ v1 v2 : ℚ, v1 ≤ v2 → mapJsTempT v1 ≤ mapJsTempT v2) := by
  refine ⟨tempT_mono, ?_, ?_, ?_, seaTQ_mono, ?_, ?_, ?_⟩
  · intro v h
    unfold getTempColor
    rw [tempT_of_le_min v h, tempT_of_le_min (-2) le_rfl]
  · intro v h
    unfold getTempColor
    rw [tempT_of_ge_max v h, tempT_of_ge_max 3 le_rfl]
  · intro mn mx v hd
    unfold getSeaColor
    rw [seaT_fin_of_ne _ _ _ (sub_ne_zero.mpr (ne_of_gt hd))]
  · intro mn mx v hd h
    unfold getSeaColor
    rw [seaT_fin_of_ne _ _ _ (sub_ne_zero.mpr (ne_of_gt hd)),
        seaT_fin_of_ne _ _ _ (sub_ne_zero.mpr (ne_of_gt hd)),
        seaTQ_of_le_min mn mx v hd h, seaTQ_of_le_min mn mx mn hd le_rfl]
  · intro mn mx v hd h
    unfold getSeaColor
    rw [seaT_fin_of_ne _ _ _ (sub_ne_zero.mpr (ne_of_gt hd)),
        seaT_fin_of_ne _ _ _ (sub_ne_zero.mpr (ne_of_gt hd)),
        seaTQ_of_ge_max mn mx v hd h, seaTQ_of_ge_max mn mx mx hd le_rfl]
  · intro v1 v2 h
    unfold mapJsTempT
    apply div_le_div_of_nonneg_right (by linarith) (by norm_num)

/-- Witness for C5: the amended theorem applied at concrete inputs
(temperature parameter 0 ≤ 1; clamping at -5 and 9; sea domain 0..10
with values -3 and 14; map.js parameter at -7 ≤ -2). -/
theorem C5_witness :
    tempT 0 ≤ tempT 1 ∧
    getTempColor (-5) = getTempColor (-2) ∧
    getTempColor 9 = getTempColor 3 ∧
    getSeaColor (JNum.fin (-3)) (JNum.fin 0) (JNum.fin 10) =
      getSeaColor (JNum.fin 0) (JNum.fin 0) (JNum.fin 10) ∧
    getSeaColor (JNum.fin 14) (JNum.fin 0) (JNum.fin 10) =
      getSeaColor (JNum.fin 10) (JNum.fin 0) (JNum.fin 10) ∧
    mapJsTempT (-7) ≤ mapJsTempT (-2) :=
  ⟨C5_clamped_monotone.1 0 1 (by norm_num),
   C5_clamped_monotone.2.1 (-5) (by norm_num),
   C5_clamped_monotone.2.2.1 9 (by norm_num),
   C5_clamped_monotone.2.2.2.2.2.1 0 10 (-3) (by norm_num) (by norm_num),
   C5_clamped_monotone.2.2.2.2.2.2.1 0 10 14 (by norm_num) (by norm_num),
   C5_clamped_monotone.2.2.2.2.2.2.2 (-7) (-2) (by norm_num)⟩

/-- Counterexample for C4: with ISO3 holding the whitespace-only string
" " and ADM0_A3 holding "USA", the first candidate whose trimmed value
is non-empty is ADM0_A3 (value "USA"), but the code's truthiness chain
picks the untrimmed " " first and trims afterwards, resolving no key at
all. -/
theorem C4_counterexample :
    specResolveKey [("ISO3", JSVal.str " "), ("ADM0_A3", JSVal.str "USA")] = some "USA" ∧
    resolveIso [("ISO3", JSVal.str " "), ("ADM0_A3", JSVal.str "USA")] = "" := by
  constructor
  · rfl
  · rfl

/-- C4 amended: the resolver tries the candidates in the fixed declared
order ISO3, ISO_A3, ADM0_A3, adm0_a3, SOV_A3, sov_a3; the first
candidate whose raw (untrimmed) value is a non-empty string wins, and
the resolved key is that winner's value trimmed — so a whitespace-only
higher-priority field shadows lower-priority candidates and yields an
empty key.  In particular, when both the uppercase and the lowercase
alternate key fields are present and non-empty (and the higher-priority
ISO fields are absent), the resolved key is the trimmed value of the
uppercase (higher declared priority) field. -/
theorem C4_resolver_priority (props : PropMap) :
    (∀ s, firstTruthyKey props isoCandidates = some s → resolveIso props = jsTrim s) ∧
    (firstTruthyKey props isoCandidates = none → resolveIso props = "") ∧
    (∀ s, lookupP props "ISO3" = none → lookupP props "ISO_A3" = none →
      lookupP props "ADM0_A3" = some (JSVal.str s) → s ≠ "" →
      resolveIso props = jsTrim s) := by
  refine ⟨?_, ?_, ?_⟩
  · intro s h
    rw [resolveIso, h]
    rfl
  · intro h
    rw [resolveIso, h]
    rfl
  · intro s h1 h2 h3 hs
    rw [resolveIso, isoCandidates, firstTruthyKey]
    simp [List.findSome?_cons, h1, h2, h3, hs]

/-- Witness for C4: the amended theorem applied to a feature carrying
both ADM0_A3 = "FRA" and adm0_a3 = "zzz"; the uppercase field wins. -/
theorem C4_witness :
    resolveIso [("ADM0_A3", JSVal.str "FRA"), ("adm0_a3", JSVal.str "zzz")] = "FRA" :=
  (C4_resolver_priority _).2.2 "FRA" rfl rfl rfl (by decide)

theorem getTempValueGo_of_all_absent (props : PropMap) (ks : List String)
    (h : ∀ k ∈ ks, lookupP props k = none) : getTempValueGo props ks = none := by
  induction ks with
  | nil => rfl
  | cons k1 ks ih =>
      rw [getTempValueGo, h k1 (List.mem_cons_self k1 ks)]
      exact ih (fun k hk => h k (List.mem_cons_of_mem k1 hk))

theorem getTempValueGo_of_first_present (props : PropMap) (ks : List String)
    (k : String) (raw : JSVal) (h : firstPresentIn props ks = some (k, raw)) :
    getTempValueGo props ks =
      if raw = JSVal.null ∨ raw = JSVal.str "" then none else jsNumber raw := by
  induction ks with
  | nil => exact absurd h (by simp [firstPresentIn])
  | cons k1 ks ih =>
      rw [firstPresentIn, List.findSome?_cons] at h
      cases hl : lookupP props k1 with
      | some v =>
          rw [hl] at h
          simp only [Option.map_some'] at h
          have hv : v = raw := (Prod.ext_iff.mp (Option.some.inj h)).2
          subst hv
          simp only [getTempValueGo, hl]
          by_cases hb : v = JSVal.null ∨ v = JSVal.str ""
          · simp [hb]
          · cases hc : jsNumber v <;> simp [hb, hc]
      | none =>
          rw [hl] at h
          simp only [Option.map_none'] at h
          simp only [getTempValueGo, hl]
          exact ih h

/-- C2: getTempValue tries the year's column name in the fixed priority
order [plain integer-as-string, F-prefixed, Y-prefixed]; the first
present candidate decides the result: null/empty/non-numeric stored
values give none, numeric ones give the parsed number; and when no
candidate column exists (in particular for any year outside the row's
observed range) it returns none — it is a total function, never a
throw. -/
theorem C2_getTempValue_lookup (props : PropMap) (year : Int) :
    yearCandidates year = [toString year, "F" ++ toString year, "Y" ++ toString year] ∧
    ((∀ k ∈ yearCandidates year, lookupP props k = none) → getTempValue props year = none) ∧
    (∀ k raw, firstPresentIn props (yearCandidates year) = some (k, raw) →
      ((raw = JSVal.null ∨ raw = JSVal.str "" ∨ jsNumber raw = none) →
        getTempValue props year = none) ∧
      (∀ q : ℚ, raw ≠ JSVal.null → raw ≠ JSVal.str "" → jsNumber raw = some q →
        getTempValue props year = some q)) := by
  refine ⟨rfl, ?_, ?_⟩
  · intro h
    exact getTempValueGo_of_all_absent props _ h
  · intro k raw h
    have hgo := getTempValueGo_of_first_present props _ k raw h
    constructor
    · intro hbad
      rw [getTempValue, hgo]
      rcases hbad with hb | hb | hb
      · simp [hb]
      · simp [hb]
      · by_cases hne : raw = JSVal.null ∨ raw = JSVal.str ""
        · simp [hne]
        · simp [hne, hb]
    · intro q h1 h2 h3
      rw [getTempValue, hgo, if_neg (by tauto), h3]

/-- Witness for C2: a row holding only the F-prefixed 1992 column with
the numeric value 2 yields 2 for year 1992 (third conjunct), and none
for the out-of-range year 2050 (second conjunct). -/
theorem C2_witness :
    getTempValue [("F1992", JSVal.num 2)] 1992 = some 2 ∧
    getTempValue [("F1992", JSVal.num 2)] 2050 = none :=
  ⟨((C2_getTempValue_lookup [("F1992", JSVal.num 2)] 1992).2.2 "F1992" (JSVal.num 2)
      (by decide)).2 2 (by decide) (by decide) rfl,
   (C2_getTempValue_lookup [("F1992", JSVal.num 2)] 2050).2.1 (by decide)⟩

theorem joinValue_eq_none_iff (idx : Store) (year : Int) (props : PropMap) :
    joinValue idx year props = none ↔
      (resolveIso props = "" ∨ idx (resolveIso props) = none ∨
       ∃ row, idx (resolveIso props) = some row ∧ getTempValue row year = none) := by
  unfold joinValue
  dsimp only
  by_cases hiso : resolveIso props = ""
  · simp [hiso]
  · rw [if_pos hiso]
    cases hrow : idx (resolveIso props) with
    | none => simp [hiso, hrow]
    | some row =>
        constructor
        · intro h
          exact Or.inr (Or.inr ⟨row, rfl, h⟩)
        · rintro (h | h | ⟨row2, hr2, hv2⟩)
          · exact absurd h hiso
          · exact Option.noConfusion h
          · cases Option.some.inj hr2
            exact hv2

theorem updateFeature_props (idx : Store) (year : Int) (f : Feature) :
    (updateFeature idx year f).properties =
      some (setProp (setProp (f.properties.getD []) "value"
              (match joinValue idx year (f.properties.getD []) with
               | some q => JSVal.num q
               | none => JSVal.null))
            "value_color"
            (match joinValue idx year (f.properties.getD []) with
             | some q => JSVal.color (getTempColor q)
             | none => JSVal.null)) := rfl

/-- Counterexample for C1: a feature with no properties at all has a
null joined value, yet the value_color written into the output feature
is null — not the defined neutral fallback color "#e0e0e0", which lives
in the layer's coalesce paint expression instead. -/
theorem C1_counterexample :
    lookupP ((updateFeature (fun _ => none) 1992 ⟨"g", none⟩).properties.getD [])
        "value_color" = some JSVal.null ∧
    JSVal.null ≠ JSVal.str "#e0e0e0" ∧
    JSVal.null ≠ JSVal.color (ColorV.lit "#e0e0e0") := by
  refine ⟨rfl, ?_, ?_⟩ <;> intro h <;> exact JSVal.noConfusion h

/-- C1 amended: the computed value is null exactly when no join key
resolves, the key has no indicator row, or the row has no resolvable
value for the current year.  When value is null, value_color is written
as null — the property is always present (never undefined) — and the
layer's coalesce paint expression resolves the rendered fill to the
neutral fallback "#e0e0e0"; when value is a number, value_color is the
temperature ramp color of that number. -/
theorem C1_null_value_fallback (idx : Store) (year : Int) (f : Feature) :
    (lookupP ((updateFeature idx year f).properties.getD []) "value" = some JSVal.null ↔
      (resolveIso (f.properties.getD []) = "" ∨
       idx (resolveIso (f.properties.getD [])) = none ∨
       ∃ row, idx (resolveIso (f.properties.getD [])) = some row ∧
         getTempValue row year = none)) ∧
    (lookupP ((updateFeature idx year f).properties.getD []) "value_color").isSome ∧
    (lookupP ((updateFeature idx year f).properties.getD []) "value" = some JSVal.null →
      lookupP ((updateFeature idx year f).properties.getD []) "value_color" = some JSVal.null ∧
      paintFillColor ((updateFeature idx year f).properties.getD []) = JSVal.str "#e0e0e0") ∧
    (∀ q : ℚ, lookupP ((updateFeature idx year f).properties.getD []) "value" =
        some (JSVal.num q) →
      lookupP ((updateFeature idx year f).properties.getD []) "value_color" =
        some (JSVal.color (getTempColor q))) := by
  have hne : ("value_color" : String) ≠ "value" := by decide
  rw [← joinValue_eq_none_iff idx year (f.properties.getD [])]
  rw [updateFeature_props]
  cases hv : joinValue idx year (f.properties.getD []) with
  | none =>
      simp only [Option.getD_some]
      rw [lookupP_setProp_other _ _ _ _ hne, lookupP_setProp_same]
      refine ⟨by simp, by simp, ?_, ?_⟩
      · intro _
        refine ⟨lookupP_setProp_same _ _ _, ?_⟩
        rw [paintFillColor, lookupP_setProp_same]
        rfl
      · intro q hq
        exact absurd (Option.some.inj hq) (fun h => JSVal.noConfusion h)
  | some q0 =>
      simp only [Option.getD_some]
      rw [lookupP_setProp_other _ _ _ _ hne, lookupP_setProp_same]
      refine ⟨by simp, by simp, ?_, ?_⟩
      · intro hq
        exact absurd (Option.some.inj hq) (fun h => JSVal.noConfusion h)
      · intro q hq
        have : q0 = q := by
          have h2 := Option.some.inj hq
          exact (JSVal.num.injEq q0 q).mp h2
        subst this
        exact lookupP_setProp_same _ _ _

/-- Witness for C1: the amended theorem applied to a feature with no
recognized join-key property against an empty index: value is null, the
value_color property is present and null, and the layer paint falls
back to "#e0e0e0". -/
theorem C1_witness :
    lookupP ((updateFeature (fun _ => none) 1992 ⟨"g", some []⟩).properties.getD [])
        "value" = some JSVal.null ∧
    lookupP ((updateFeature (fun _ => none) 1992 ⟨"g", some []⟩).properties.getD [])
        "value_color" = some JSVal.null ∧
    paintFillColor ((updateFeature (fun _ => none) 1992 ⟨"g", some []⟩).properties.getD []) =
      JSVal.str "#e0e0e0" := by
  have h := C1_null_value_fallback (fun _ => none) 1992 ⟨"g", some []⟩
  have hval : lookupP ((updateFeature (fun _ => none) 1992 ⟨"g", some []⟩).properties.getD [])
      "value" = some JSVal.null := h.1.mpr (Or.inl rfl)
  have hc := h.2.2.1 hval
  exact ⟨hval, hc.1, hc.2⟩

theorem lookupA_pushAt (acc : List (Option Int × List ℚ)) (y k : Option Int) (v : ℚ) :
    lookupA (pushAt acc y v) k =
      if k = y then some ((lookupA acc y).getD [] ++ [v]) else lookupA acc k := by
  induction acc with
  | nil =>
      by_cases h : k = y
      · subst h
        simp [pushAt, lookupA]
      · have h2 : ¬(y = k) := fun hh => h hh.symm
        simp [pushAt, lookupA, h, h2]
  | cons hd rest ih =>
      obtain ⟨y1, l⟩ := hd
      by_cases h1 : y1 = y
      · subst h1
        by_cases h2 : k = y1
        · subst h2
          simp [pushAt, lookupA]
        · have h3 : ¬(y1 = k) := fun hh => h2 hh.symm
          simp [pushAt, lookupA, h2, h3]
      · by_cases h2 : y1 = k
        · subst h2
          have h3 : ¬(y1 = y) := h1
          simp [pushAt, lookupA, h1, h3]
        · simp [pushAt, lookupA, h1, h2, ih]

theorem lookupA_foldl_collect (recs : List SeaRec) (acc : List (Option Int × List ℚ))
    (k : Option Int) :
    lookupA (recs.foldl collectStep acc) k =
      match lookupA acc k with
      | some l => some (l ++ valuesForYear recs k)
      | none =>
          if valuesForYear recs k = [] then none else some (valuesForYear recs k) := by
  induction recs generalizing acc with
  | nil =>
      cases h : lookupA acc k <;> simp [valuesForYear, h]
  | cons r recs ih =>
      rw [List.foldl_cons, ih (collectStep acc r)]
      cases hd : r.date with
      | none =>
          have hstep : collectStep acc r = acc := by
            simp [collectStep, hd]
          have hval : valuesForYear (r :: recs) k = valuesForYear recs k := by
            simp [valuesForYear, List.filterMap_cons, hd]
          rw [hstep, hval]
      | some d =>
          cases hv : r.value with
          | none =>
              have hstep : collectStep acc r = acc := by
                simp [collectStep, hd, hv]
              have hval : valuesForYear (r :: recs) k = valuesForYear recs k := by
                simp [valuesForYear, List.filterMap_cons, hd, hv]
              rw [hstep, hval]
          | some v =>
              by_cases hde : d = ""
              · have hstep : collectStep acc r = acc := by
                  simp [collectStep, hd, hv, hde]
                have hval : valuesForYear (r :: recs) k = valuesForYear recs k := by
                  simp [valuesForYear, List.filterMap_cons, hd, hv, hde]
                rw [hstep, hval]
              · have hstep : collectStep acc r = pushAt acc (extractYear d) v := by
                  simp [collectStep, hd, hv, hde]
                by_cases hy : extractYear d = k
                · have hval : valuesForYear (r :: recs) k = v :: valuesForYear recs k := by
                    simp [valuesForYear, List.filterMap_cons, hd, hv, hde, hy]
                  rw [hstep, hval, lookupA_pushAt, if_pos hy.symm, hy]
                  cases hacc : lookupA acc k <;> simp
                · have hval : valuesForYear (r :: recs) k = valuesForYear recs k := by
                    simp [valuesForYear, List.filterMap_cons, hd, hv, hde, hy]
                  rw [hstep, hval, lookupA_pushAt,
                      if_neg (fun h : k = extractYear d => hy h.symm)]

theorem lookupA_map_avg (l : List (Option Int × List ℚ)) (k : Option Int) :
    lookupA (l.map (fun p => (p.1, reduceSum p.2 / (p.2.length : ℚ)))) k =
      (lookupA l k).map (fun vs => reduceSum vs / (vs.length : ℚ)) := by
  induction l with
  | nil => rfl
  | cons hd rest ih =>
      obtain ⟨y1, vs⟩ := hd
      by_cases h : y1 = k <;> simp [lookupA, h, ih]

theorem reduceSum_eq_sum (l : List ℚ) : reduceSum l = l.sum := by
  have haux : ∀ (m : List ℚ) (a : ℚ), m.foldl (fun x y => x + y) a = a + m.sum := by
    intro m
    induction m with
    | nil => intro a; simp
    | cons x xs ih => intro a; simp [ih, add_assoc]
  simpa using haux l 0

/-- C3: processSeaLevels maps each calendar year (parseInt of the last
four characters of the record's date) to the arithmetic mean of all
record values sharing that year; records with a missing date or a
missing value are skipped (they contribute to neither sum nor count);
and the concrete series with values 10 and 20 both dated in year 2000
yields the entry 15 for year 2000. -/
theorem C3_yearly_mean (recs : List SeaRec) (y : Int) :
    (lookupA (processSeaLevels recs) (some y) =
      if valuesForYear recs (some y) = [] then none
      else
        some ((valuesForYear recs (some y)).sum /
          ((valuesForYear recs (some y)).length : ℚ))) ∧
    lookupA
      (processSeaLevels
        [⟨some "D10/17/2000", some 10⟩, ⟨some "D3/4/2000", some 20⟩])
      (some 2000) = some 15 := by
  constructor
  · rw [processSeaLevels, lookupA_map_avg, collectYearly, lookupA_foldl_collect]
    cases hvv : valuesForYear recs (some y) with
    | nil => simp [lookupA, hvv]
    | cons a l => simp [lookupA, hvv, reduceSum_eq_sum]
  · have h1 : extractYear "D10/17/2000" = some 2000 := by decide
    have h2 : extractYear "D3/4/2000" = some 2000 := by decide
    have hne1 : ("D10/17/2000" : String) ≠ "" := by decide
    have hne2 : ("D3/4/2000" : String) ≠ "" := by decide
    simp only [processSeaLevels, collectYearly, List.foldl_cons, List.foldl_nil,
      collectStep, h1, h2, pushAt, lookupA, if_neg hne1, if_neg hne2, List.map_cons,
      List.map_nil, reduceSum, List.foldl, List.length]
    norm_num

theorem updateMap_not_ready_source (s : MapState) (h : s.climateSource = none) :
    updateMap s = s := by
  cases hw : s.worldGeom <;> simp [updateMap, h, hw]

theorem updateMap_not_ready_world (s : MapState) (h : s.worldGeom = none) :
    updateMap s = s := by
  cases hc : s.climateSource <;> simp [updateMap, h, hc]

theorem updateMap_ready (s : MapState) (d wg : FC) (h1 : s.climateSource = some d)
    (h2 : s.worldGeom = some wg) :
    updateMap s =
      if s.oceanLayerExists then
        { s with climateSource := some (landUpdated s.tempByISO s.currentYear wg),
                 oceanPaint := oceanColorOf s }
      else
        { s with climateSource := some (landUpdated s.tempByISO s.currentYear wg) } := by
  by_cases ho : s.oceanLayerExists <;>
    simp [updateMap, h1, h2, setPaintPropertyOcean, ho]

theorem updateMap_preserves (s : MapState) :
    (updateMap s).worldGeom = s.worldGeom ∧
    (updateMap s).tempByISO = s.tempByISO ∧
    (updateMap s).currentYear = s.currentYear ∧
    (updateMap s).seaByYear = s.seaByYear ∧
    (updateMap s).mode = s.mode ∧
    (updateMap s).oceanLayerExists = s.oceanLayerExists := by
  cases hc : s.climateSource with
  | none =>
      rw [updateMap_not_ready_source s hc]
      exact ⟨rfl, rfl, rfl, rfl, rfl, rfl⟩
  | some d =>
      cases hw : s.worldGeom with
      | none =>
          rw [updateMap_not_ready_world s hw]
          exact ⟨hw, rfl, rfl, rfl, rfl, rfl⟩
      | some wg =>
          rw [updateMap_ready s d wg hc hw]
          by_cases ho : s.oceanLayerExists <;> simp [ho, hw]

theorem oceanColorOf_congr (s t : MapState) (h1 : s.seaByYear = t.seaByYear)
    (h2 : s.currentYear = t.currentYear) : oceanColorOf s = oceanColorOf t := by
  rw [oceanColorOf, oceanColorOf, h1, h2]

theorem updateMap_climateSource_ready (s : MapState) (d wg : FC)
    (h1 : s.climateSource = some d) (h2 : s.worldGeom = some wg) :
    (updateMap s).climateSource = some (landUpdated s.tempByISO s.currentYear wg) := by
  rw [updateMap_ready s d wg h1 h2]
  by_cases ho : s.oceanLayerExists <;> simp [ho]

theorem updateMap_oceanPaint_ready (s : MapState) (d wg : FC)
    (h1 : s.climateSource = some d) (h2 : s.worldGeom = some wg) :
    (updateMap s).oceanPaint =
      if s.oceanLayerExists then oceanColorOf s else s.oceanPaint := by
  rw [updateMap_ready s d wg h1 h2]
  by_cases ho : s.oceanLayerExists <;> simp [ho]

/-- C7: updateMap reads only the unmodified base collection and the
read-only indices (worldGeom, tempByISO, seaByYear, currentYear), all of
which it leaves untouched, so invoking it twice in the same RenderState
publishes identical output: the second call's published climate
collection and ocean paint equal the first call's. -/
theorem C7_update_idempotent (s : MapState) :
    ((updateMap s).worldGeom = s.worldGeom ∧
     (updateMap s).tempByISO = s.tempByISO ∧
     (updateMap s).currentYear = s.currentYear ∧
     (updateMap s).seaByYear = s.seaByYear) ∧
    (updateMap (updateMap s)).climateSource = (updateMap s).climateSource ∧
    (updateMap (updateMap s)).oceanPaint = (updateMap s).oceanPaint := by
  obtain ⟨p1, p2, p3, p4, p5, p6⟩ := updateMap_preserves s
  refine ⟨⟨p1, p2, p3, p4⟩, ?_, ?_⟩
  all_goals cases hc : s.climateSource with
  | none =>
      simp only [updateMap_not_ready_source s hc]
  | some d =>
      cases hw : s.worldGeom with
      | none => simp only [updateMap_not_ready_world s hw]
      | some wg =>
          have hc2 : (updateMap s).climateSource =
              some (landUpdated s.tempByISO s.currentYear wg) :=
            updateMap_climateSource_ready s d wg hc hw
          have hw2 : (updateMap s).worldGeom = some wg := p1.trans hw
          have hcolor : oceanColorOf (updateMap s) = oceanColorOf s :=
            oceanColorOf_congr (updateMap s) s p4 p3
          first
          | (rw [updateMap_climateSource_ready (updateMap s) _ wg hc2 hw2, p2, p3, hc2])
          | (rw [updateMap_oceanPaint_ready (updateMap s) _ wg hc2 hw2,
                 updateMap_oceanPaint_ready s d wg hc hw, p6, hcolor]
             by_cases ho : s.oceanLayerExists
             · simp [ho]
             · simp [ho, updateMap_oceanPaint_ready s d wg hc hw])

/-- C10: the land feature collection the updater publishes depends only
on the current year, the base geometry, the indicator index and the
previously published source (for the readiness guard) — never on mode:
two states agreeing on those but differing arbitrarily in mode publish
an identical climate collection. -/
theorem C10_mode_noninterference (s1 s2 : MapState)
    (hw : s1.worldGeom = s2.worldGeom) (hi : s1.tempByISO = s2.tempByISO)
    (hy : s1.currentYear = s2.currentYear) (hcs : s1.climateSource = s2.climateSource) :
    (updateMap s1).climateSource = (updateMap s2).climateSource := by
  cases hc : s2.climateSource with
  | none =>
      rw [updateMap_not_ready_source s1 (hcs.trans hc),
          updateMap_not_ready_source s2 hc, hcs]
  | some d =>
      cases hwg : s2.worldGeom with
      | none =>
          rw [updateMap_not_ready_world s1 (hw.trans hwg),
              updateMap_not_ready_world s2 hwg, hcs]
      | some wg =>
          rw [updateMap_climateSource_ready s1 d wg (hcs.trans hc) (hw.trans hwg),
              updateMap_climateSource_ready s2 d wg hc hwg, hi, hy]

/-- Witness for C10: two concrete ready states identical except that
one is in temperature mode and the other in sea-level mode publish the
same climate collection. -/
theorem C10_witness :
    (updateMap
      ⟨some ⟨"w", []⟩, fun _ => none, [], 1992, "temp",
        some ⟨"c", []⟩, true, JSVal.str "#aac6ff"⟩).climateSource =
    (updateMap
      ⟨some ⟨"w", []⟩, fun _ => none, [], 1992, "sea",
        some ⟨"c", []⟩, true, JSVal.str "#aac6ff"⟩).climateSource :=
  C10_mode_noninterference _ _ rfl rfl rfl rfl

/-- Counterexample for C8: the claim also covers map.js's updateMap
(lines 98-144), which has no guard on the climate source: when the
source does not yet exist, src.setData on undefined throws a TypeError
that propagates to the caller instead of being a silent no-op. -/
theorem C8_counterexample :
    mapJsUpdateMap
      ⟨some ⟨"t", []⟩, [], 1990, "temp", none, false, JSVal.str "#aadaff"⟩ =
    Except.error "TypeError: cannot read setData of undefined" := rfl

/-- C8 amended: in part 000's updateMap, a missing climate source or
missing world geometry makes the call a complete no-op (state
preserved, nothing thrown), and when only the ocean layer is missing
the throwing paint call is caught, leaving the ocean paint unchanged
while the land data is still published; once source and geometry exist
the update publishes the recomputed collection.  In map.js's updateMap,
by contrast, only the water paint call is guarded: a missing climate
source throws an uncaught TypeError to the caller. -/
theorem C8_surface_not_ready (s : MapState) :
    (s.climateSource = none → updateMap s = s) ∧
    (s.worldGeom = none → updateMap s = s) ∧
    (s.oceanLayerExists = false →
      (updateMap s).oceanPaint = s.oceanPaint ∧
      setPaintPropertyOcean s (oceanColorOf s) =
        Except.error "layer ocean-fill does not exist") ∧
    (∀ d wg, s.climateSource = some d → s.worldGeom = some wg →
      (updateMap s).climateSource = some (landUpdated s.tempByISO s.currentYear wg)) := by
  refine ⟨updateMap_not_ready_source s, updateMap_not_ready_world s, ?_, ?_⟩
  · intro ho
    constructor
    · cases hc : s.climateSource with
      | none => rw [updateMap_not_ready_source s hc]
      | some d =>
          cases hw : s.worldGeom with
          | none => rw [updateMap_not_ready_world s hw]
          | some wg =>
              rw [updateMap_oceanPaint_ready s d wg hc hw, ho]
              rfl
    · rw [setPaintPropertyOcean, ho]
      rfl
  · intro d wg h1 h2
    exact updateMap_climateSource_ready s d wg h1 h2

/-- Witness for C8: the amended theorem applied to a concrete state with
no climate source (full no-op), to one with no ocean layer (paint call
errors but is caught, paint unchanged), and to a ready state (the
recomputed collection is published). -/
theorem C8_witness :
    (updateMap ⟨some ⟨"w", []⟩, fun _ => none, [], 1992, "temp", none, true,
        JSVal.str "#aac6ff"⟩ =
      ⟨some ⟨"w", []⟩, fun _ => none, [], 1992, "temp", none, true,
        JSVal.str "#aac6ff"⟩) ∧
    ((updateMap ⟨some ⟨"w", []⟩, fun _ => none, [], 1992, "temp", some ⟨"c", []⟩, false,
        JSVal.str "#aac6ff"⟩).oceanPaint = JSVal.str "#aac6ff") ∧
    ((updateMap ⟨some ⟨"w", []⟩, fun _ => none, [], 1992, "temp", some ⟨"c", []⟩, true,
        JSVal.str "#aac6ff"⟩).climateSource =
      some (landUpdated (fun _ => none) 1992 ⟨"w", []⟩)) :=
  ⟨(C8_surface_not_ready _).1 rfl,
   ((C8_surface_not_ready _).2.2.1 rfl).1,
   (C8_surface_not_ready _).2.2.2 ⟨"c", []⟩ ⟨"w", []⟩ rfl rfl⟩
